import Mathlib

/-!
Shallow embedding of the two components of the ai-task-hub canvas slice:
`src/components/canvas/canvas-element.tsx` (the CanvasElement interaction
state machine, the pen bounding-box arithmetic, the kanban task-count
badge, the prop defaults) and `src/components/canvas/collaboration-cursors.tsx`
(the cursor overlay).

Coordinates are modelled as `Int` (the interaction arithmetic is purely
additive), except cursor scaling, which divides by 100 and is therefore
modelled over `ℚ`.

React semantics relevant to the interaction machine: the `useEffect` with
dependency list `[isDragging, isResizing, dragOffset]` registers the
document-level `mousemove`/`mouseup` listeners while a drag or resize is
active and tears them down on exit.  The effect re-runs only when one of
its dependencies changes; `dragOffset` is compared by reference and
`setDragOffset` always allocates a fresh object, so we track an
`offsetVersion` counter that bumps on every `setDragOffset`.  The
registered `mousemove` listener is the `handleMouseMove` closure of the
render in which the effect last ran, so it captures the values of
`isDragging`, `locked` and `dragOffset` of that render (`ListenerSnapshot`);
in particular a `locked` prop change alone does not re-register the
listener, and the registered closure keeps the old `locked` value.
-/

namespace CanvasModel

/-- A 2D point, as used for pointer coordinates and pen stroke points. -/
structure Point where
  x : Int
  y : Int
deriving DecidableEq, Repr

/-- The discriminated shape kind of a canvas element
(`type` prop of `CanvasElement`). -/
inductive ElementType
  | rectangle
  | circle
  | text
  | sticky
  | frame
  | line
  | arrow
  | pen
  | kanban
deriving DecidableEq, Repr

/-- The props of `CanvasElement` that drive the interaction machine
(`x`, `y`, `type`, `locked`).  Callbacks are modelled as emitted outputs. -/
structure ElementProps where
  type : ElementType
  x : Int
  y : Int
  locked : Bool
deriving DecidableEq, Repr

/-- The component's local `useState` state: `isDragging`, `isResizing`,
`dragOffset` (with `offsetVersion` tracking the object identity of the
`dragOffset` value, fresh on every `setDragOffset`), `isEditing`,
`isHovered`. -/
structure LocalState where
  isDragging : Bool
  isResizing : Bool
  dragOffset : Point
  offsetVersion : Nat
  isEditing : Bool
  isHovered : Bool
deriving DecidableEq, Repr

/-- The environment captured by the registered document `mousemove`
listener: the values of `isDragging`, `locked` and `dragOffset` seen by the
`handleMouseMove` closure of the render in which the effect ran. -/
structure ListenerSnapshot where
  isDragging : Bool
  locked : Bool
  dragOffset : Point
deriving DecidableEq, Repr

/-- Full component state: props, local state, the currently registered
document listeners (if any) and the effect's last-seen dependency tuple. -/
structure ComponentState where
  props : ElementProps
  ui : LocalState
  listener : Option ListenerSnapshot
  lastDeps : Bool × Bool × Nat
deriving DecidableEq, Repr

/-- Requests sent to the parent through the `onUpdate`/`onSelect`
callbacks. -/
inductive Output
  | select
  | updatePos (x y : Int)
  | updateLocked (b : Bool)
  | updateContent (c : String)
deriving DecidableEq, Repr

/-- Events the component reacts to.  `docMouseMove`/`docMouseUp` are the
document-level events seen by the registered listeners; `applyLocked` and
`applyPos` model the parent applying a requested prop update (the parent
owns the props). -/
inductive Event
  | mouseDown (p : Point)
  | doubleClick
  | contentClick
  | docMouseMove (p : Point)
  | docMouseUp
  | lockToggle
  | contentChange (c : String)
  | editBlur
  | mouseEnter
  | mouseLeave
  | applyLocked (b : Bool)
  | applyPos (p : Point)
deriving DecidableEq, Repr

/-- The `useEffect` dependency tuple `[isDragging, isResizing, dragOffset]`
(with `dragOffset` tracked by identity via `offsetVersion`). -/
def depsOf (s : ComponentState) : Bool × Bool × Nat :=
  (s.ui.isDragging, s.ui.isResizing, s.ui.offsetVersion)

/-- Run the `useEffect` after a render: if the dependency tuple changed,
tear down the old listeners and register new ones exactly when
`isDragging || isResizing`, capturing the current render's environment. -/
def syncEffect (s : ComponentState) : ComponentState :=
  if depsOf s = s.lastDeps then s
  else
    { s with
      lastDeps := depsOf s
      listener :=
        if s.ui.isDragging || s.ui.isResizing then
          some ⟨s.ui.isDragging, s.props.locked, s.ui.dragOffset⟩
        else none }

/-- `handleMouseDown`: if locked, return; otherwise start dragging,
capture the offset between the pointer and the element's top-left, and
notify selection. -/
def handleMouseDown (s : ComponentState) (p : Point) : ComponentState × List Output :=
  if s.props.locked then (s, [])
  else
    ({ s with
        ui := { s.ui with
          isDragging := true
          dragOffset := ⟨p.x - s.props.x, p.y - s.props.y⟩
          offsetVersion := s.ui.offsetVersion + 1 } },
      [Output.select])

/-- `handleDoubleClick`: if locked, return; enter editing for the text and
sticky kinds only. -/
def handleDoubleClick (s : ComponentState) : ComponentState × List Output :=
  if s.props.locked then (s, [])
  else if s.props.type = ElementType.text ∨ s.props.type = ElementType.sticky then
    ({ s with ui := { s.ui with isEditing := true } }, [])
  else (s, [])

/-- The inline `onClick` of the sticky note's non-editing content area
(`() => !locked && setIsEditing(true)`); that handler is rendered only for
the sticky kind while not editing. -/
def handleStickyClick (s : ComponentState) : ComponentState × List Output :=
  if s.props.type = ElementType.sticky ∧ s.ui.isEditing = false ∧ s.props.locked = false then
    ({ s with ui := { s.ui with isEditing := true } }, [])
  else (s, [])

/-- `handleMouseMove` as captured by the registered listener closure:
`if (isDragging && onUpdate && !locked) onUpdate(id, {x: clientX - dragOffset.x,
y: clientY - dragOffset.y})`, with `isDragging`, `locked` and `dragOffset`
taken from the snapshot. -/
def handleMouseMove (snap : ListenerSnapshot) (p : Point) : List Output :=
  if snap.isDragging = true ∧ snap.locked = false then
    [Output.updatePos (p.x - snap.dragOffset.x) (p.y - snap.dragOffset.y)]
  else []

/-- `handleMouseUp`: clear `isDragging` and `isResizing`. -/
def handleMouseUp (s : ComponentState) : ComponentState :=
  { s with ui := { s.ui with isDragging := false, isResizing := false } }

/-- `handleLockToggle`: request `locked := !locked` via `onUpdate`. -/
def handleLockToggle (s : ComponentState) : ComponentState × List Output :=
  (s, [Output.updateLocked (!s.props.locked)])

/-- `handleContentChange`: the textarea (rendered only when editing a text
or sticky element) forwards every content change via `onUpdate`. -/
def handleContentChange (s : ComponentState) (c : String) : ComponentState × List Output :=
  if (s.props.type = ElementType.text ∨ s.props.type = ElementType.sticky) ∧
      s.ui.isEditing = true then
    (s, [Output.updateContent c])
  else (s, [])

/-- Dispatch one event to the matching handler.  Document-level events
reach the component only through the registered listeners. -/
def handle (s : ComponentState) : Event → ComponentState × List Output
  | Event.mouseDown p => handleMouseDown s p
  | Event.doubleClick => handleDoubleClick s
  | Event.contentClick => handleStickyClick s
  | Event.docMouseMove p =>
    match s.listener with
    | none => (s, [])
    | some snap => (s, handleMouseMove snap p)
  | Event.docMouseUp =>
    match s.listener with
    | none => (s, [])
    | some _ => (handleMouseUp s, [])
  | Event.lockToggle => handleLockToggle s
  | Event.contentChange c => handleContentChange s c
  | Event.editBlur => ({ s with ui := { s.ui with isEditing := false } }, [])
  | Event.mouseEnter => ({ s with ui := { s.ui with isHovered := true } }, [])
  | Event.mouseLeave => ({ s with ui := { s.ui with isHovered := false } }, [])
  | Event.applyLocked b => ({ s with props := { s.props with locked := b } }, [])
  | Event.applyPos p => ({ s with props := { s.props with x := p.x, y := p.y } }, [])

/-- One full step: handle the event, then re-render and run the effect. -/
def step (s : ComponentState) (e : Event) : ComponentState × List Output :=
  (syncEffect (handle s e).1, (handle s e).2)

/-- Run a sequence of events, collecting all emitted outputs in order. -/
def run : ComponentState → List Event → ComponentState × List Output
  | s, [] => (s, [])
  | s, e :: es =>
    ((run (step s e).1 es).1, (step s e).2 ++ (run (step s e).1 es).2)

/-- The component state reached by an unlocked pointer-down at `p`:
dragging with the captured offset, the effect re-run and the move/up
listeners registered with the drag-start render's closure (derived form,
used to state the pointer-down step lemma). -/
def dragState (s : ComponentState) (p : Point) : ComponentState :=
  { props := s.props
    ui := { isDragging := true
            isResizing := s.ui.isResizing
            dragOffset := ⟨p.x - s.props.x, p.y - s.props.y⟩
            offsetVersion := s.ui.offsetVersion + 1
            isEditing := s.ui.isEditing
            isHovered := s.ui.isHovered }
    listener := some ⟨true, false, ⟨p.x - s.props.x, p.y - s.props.y⟩⟩
    lastDeps := (true, s.ui.isResizing, s.ui.offsetVersion + 1) }

/-- `dragState` after the parent applies the `locked := true` update: the
props change, but the registered listener snapshot is untouched. -/
def lockedDragState (s : ComponentState) (p : Point) : ComponentState :=
  { dragState s p with
    props := { (dragState s p).props with locked := true } }

/-- A freshly mounted, idle component (no drag, no edit, no registered
listeners, effect in sync with the initial render). -/
def mkIdle (t : ElementType) (x y : Int) (locked : Bool) : ComponentState :=
  { props := ⟨t, x, y, locked⟩
    ui := ⟨false, false, ⟨0, 0⟩, 0, false, false⟩
    listener := none
    lastDeps := (false, false, 0) }

/-! ### Pen rendering (`renderElement`, case 'pen') -/

/-- `Math.min(...points.map(p => p.x))` for the nonempty point list the
pen branch operates on (the branch is guarded by `points.length < 2`). -/
def minXs : List Point → Int
  | [] => 0
  | p :: ps => ps.foldl (fun acc q => min acc q.x) p.x

/-- `Math.min(...points.map(p => p.y))`. -/
def minYs : List Point → Int
  | [] => 0
  | p :: ps => ps.foldl (fun acc q => min acc q.y) p.y

/-- `Math.max(...points.map(p => p.x))`. -/
def maxXs : List Point → Int
  | [] => 0
  | p :: ps => ps.foldl (fun acc q => max acc q.x) p.x

/-- `Math.max(...points.map(p => p.y))`. -/
def maxYs : List Point → Int
  | [] => 0
  | p :: ps => ps.foldl (fun acc q => max acc q.y) p.y

/-- The visual output of the pen branch: the positioned bounding box
(`left`, `top`, `width`, `height` of the wrapper div and svg) and the
translated point sequence of the svg path
(`d = M (p.x - minX),(p.y - minY) L ...`). -/
structure PenRender where
  left : Int
  top : Int
  width : Int
  height : Int
  path : List Point
deriving DecidableEq, Repr

/-- `renderElement` case 'pen': `if (points.length < 2) return null`, else
the bounding box is the min/max extent of the points and the path is the
point sequence translated by `(-minX, -minY)`. -/
def renderPen (points : List Point) : Option PenRender :=
  if points.length < 2 then none
  else
    some
      { left := minXs points
        top := minYs points
        width := maxXs points - minXs points
        height := maxYs points - minYs points
        path := points.map fun p => ⟨p.x - minXs points, p.y - minYs points⟩ }

/-! ### Kanban board data and task-count badge (`renderKanbanBoard`) -/

/-- Card priority, one of 'low' | 'medium' | 'high'. -/
inductive Priority
  | low
  | medium
  | high
deriving DecidableEq, Repr

/-- A kanban card (`KanbanCard`). -/
structure KanbanCard where
  id : String
  title : String
  description : Option String
  color : Option String
  priority : Option Priority
  tags : Option (List String)
deriving DecidableEq, Repr

/-- A kanban column (`KanbanColumn`). -/
structure KanbanColumn where
  id : String
  title : String
  cards : List KanbanCard
deriving DecidableEq, Repr

/-- The nested board value (`kanbanData` prop). -/
structure KanbanData where
  columns : List KanbanColumn
deriving DecidableEq, Repr

/-- The task count shown in the kanban header:
`kanbanData.columns.reduce((total, col) => total + col.cards.length, 0)`. -/
def taskCount (d : KanbanData) : Nat :=
  d.columns.foldl (fun total col => total + col.cards.length) 0

/-- The task-count badge of `renderKanbanBoard`: `null` when there is no
board data, absent when locked (the badge is wrapped in `{!locked && ...}`),
otherwise the computed task count. -/
def renderKanbanBadge (locked : Bool) (kanbanData : Option KanbanData) : Option Nat :=
  match kanbanData with
  | none => none
  | some d => if locked then none else some (taskCount d)

/-! ### Prop defaults and rendered size (`CanvasElement` destructuring,
`renderElement` style objects) -/

/-- `width = 100` default. -/
def defaultWidth (w : Option Int) : Int := w.getD 100

/-- `height = 100` default. -/
def defaultHeight (h : Option Int) : Int := h.getD 100

/-- `color = '#6366f1'` default. -/
def defaultColor (c : Option String) : String := c.getD "#6366f1"

/-- `strokeWidth = 2` default. -/
def defaultStrokeWidth (sw : Option Int) : Int := sw.getD 2

/-- A CSS size value as it appears in the rendered style objects. -/
inductive CssSize
  | auto
  | px (n : Int)
deriving DecidableEq, Repr

/-- The `width` style of the rectangle/circle/sticky/frame/kanban branches:
`width: width`. -/
def boxStyleWidth (width : Int) : CssSize := CssSize.px width

/-- The `height` style of the rectangle/circle/sticky/frame/kanban
branches: `height: height`. -/
def boxStyleHeight (height : Int) : CssSize := CssSize.px height

/-- The `width` style of the text branch:
`width: width === 100 ? 'auto' : width`. -/
def textStyleWidth (width : Int) : CssSize :=
  if width = 100 then CssSize.auto else CssSize.px width

/-- The `height` style of the text branch:
`height: height === 100 ? 'auto' : height`. -/
def textStyleHeight (height : Int) : CssSize :=
  if height = 100 then CssSize.auto else CssSize.px height

/-! ### Collaboration cursors (`collaboration-cursors.tsx`) -/

/-- The collaborator identity of a cursor entry. -/
structure CursorUser where
  id : String
  name : String
  avatar_url : String
deriving DecidableEq, Repr

/-- One cursor entry: identity plus raw canvas coordinates. -/
structure CursorPosition where
  user : CursorUser
  x : ℚ
  y : ℚ
deriving DecidableEq, Repr

/-- The fixed 8-color palette `cursorColors`. -/
def cursorColors : List String :=
  ["#3B82F6", "#8B5CF6", "#10B981", "#F97316",
   "#EF4444", "#EC4899", "#14B8A6", "#F59E0B"]

/-- One rendered cursor marker: its absolute position
(`left: cursor.x * (zoom / 100)`, `top: cursor.y * (zoom / 100)`) and the
color `cursorColors[index % cursorColors.length]`. -/
structure CursorMarker where
  left : ℚ
  top : ℚ
  color : String
deriving DecidableEq, Repr

/-- Render the marker for the cursor at a given list index. -/
def renderMarker (index : Nat) (c : CursorPosition) (zoom : ℚ) : CursorMarker :=
  { left := c.x * (zoom / 100)
    top := c.y * (zoom / 100)
    color := cursorColors.getD (index % cursorColors.length) "" }

/-- `cursors.map((cursor, index) => ...)`, carrying the running index. -/
def renderCursorsFrom (zoom : ℚ) : Nat → List CursorPosition → List CursorMarker
  | _, [] => []
  | i, c :: cs => renderMarker i c zoom :: renderCursorsFrom zoom (i + 1) cs

/-- The full `CollaborationCursors` render: one marker per entry, in
order. -/
def renderCursors (cursors : List CursorPosition) (zoom : ℚ) : List CursorMarker :=
  renderCursorsFrom zoom 0 cursors

/-! ## Helper lemmas -/

theorem foldl_min_le_init (f : Point → Int) (l : List Point) (a : Int) :
    l.foldl (fun acc q => min acc (f q)) a ≤ a := by
  induction l generalizing a with
  | nil => exact le_refl a
  | cons q l ih => exact le_trans (ih (min a (f q))) (min_le_left a (f q))

theorem foldl_min_le_mem (f : Point → Int) (l : List Point) (a : Int) (q : Point)
    (hq : q ∈ l) : l.foldl (fun acc r => min acc (f r)) a ≤ f q := by
  induction l generalizing a with
  | nil => cases hq
  | cons r l ih =>
    rcases List.mem_cons.mp hq with h | h
    · subst h
      exact le_trans (foldl_min_le_init f l (min a (f q))) (min_le_right a (f q))
    · exact ih (min a (f r)) h

theorem foldl_min_attained (f : Point → Int) (l : List Point) (a : Int) :
    l.foldl (fun acc q => min acc (f q)) a = a ∨
      ∃ q ∈ l, l.foldl (fun acc q => min acc (f q)) a = f q := by
  induction l generalizing a with
  | nil => exact Or.inl rfl
  | cons r l ih =>
    rcases ih (min a (f r)) with h | ⟨q, hq, hval⟩
    · rcases min_cases a (f r) with ⟨hmin, _⟩ | ⟨hmin, _⟩
      · exact Or.inl (by rw [List.foldl_cons, h, hmin])
      · exact Or.inr ⟨r, List.mem_cons_self r l, by rw [List.foldl_cons, h, hmin]⟩
    · exact Or.inr ⟨q, List.mem_cons_of_mem r hq, by rw [List.foldl_cons]; exact hval⟩

theorem foldl_max_init_le (f : Point → Int) (l : List Point) (a : Int) :
    a ≤ l.foldl (fun acc q => max acc (f q)) a := by
  induction l generalizing a with
  | nil => exact le_refl a
  | cons q l ih => exact le_trans (le_max_left a (f q)) (ih (max a (f q)))

theorem foldl_max_mem_le (f : Point → Int) (l : List Point) (a : Int) (q : Point)
    (hq : q ∈ l) : f q ≤ l.foldl (fun acc r => max acc (f r)) a := by
  induction l generalizing a with
  | nil => cases hq
  | cons r l ih =>
    rcases List.mem_cons.mp hq with h | h
    · subst h
      exact le_trans (le_max_right a (f q)) (foldl_max_init_le f l (max a (f q)))
    · exact ih (max a (f r)) h

theorem foldl_max_attained (f : Point → Int) (l : List Point) (a : Int) :
    l.foldl (fun acc q => max acc (f q)) a = a ∨
      ∃ q ∈ l, l.foldl (fun acc q => max acc (f q)) a = f q := by
  induction l generalizing a with
  | nil => exact Or.inl rfl
  | cons r l ih =>
    rcases ih (max a (f r)) with h | ⟨q, hq, hval⟩
    · rcases max_cases a (f r) with ⟨hmax, _⟩ | ⟨hmax, _⟩
      · exact Or.inl (by rw [List.foldl_cons, h, hmax])
      · exact Or.inr ⟨r, List.mem_cons_self r l, by rw [List.foldl_cons, h, hmax]⟩
    · exact Or.inr ⟨q, List.mem_cons_of_mem r hq, by rw [List.foldl_cons]; exact hval⟩

theorem minXs_isLeast (p : Point) (ps : List Point) :
    IsLeast { z : Int | ∃ q ∈ p :: ps, q.x = z } (minXs (p :: ps)) := by
  constructor
  · rcases foldl_min_attained (fun q => q.x) ps p.x with h | ⟨q, hq, hval⟩
    · exact ⟨p, List.mem_cons_self p ps, h.symm⟩
    · exact ⟨q, List.mem_cons_of_mem p hq, hval.symm⟩
  · rintro z ⟨q, hq, rfl⟩
    rcases List.mem_cons.mp hq with h | h
    · subst h; exact foldl_min_le_init (fun q => q.x) ps q.x
    · exact foldl_min_le_mem (fun q => q.x) ps p.x q h

theorem minYs_isLeast (p : Point) (ps : List Point) :
    IsLeast { z : Int | ∃ q ∈ p :: ps, q.y = z } (minYs (p :: ps)) := by
  constructor
  · rcases foldl_min_attained (fun q => q.y) ps p.y with h | ⟨q, hq, hval⟩
    · exact ⟨p, List.mem_cons_self p ps, h.symm⟩
    · exact ⟨q, List.mem_cons_of_mem p hq, hval.symm⟩
  · rintro z ⟨q, hq, rfl⟩
    rcases List.mem_cons.mp hq with h | h
    · subst h; exact foldl_min_le_init (fun q => q.y) ps q.y
    · exact foldl_min_le_mem (fun q => q.y) ps p.y q h

theorem maxXs_isGreatest (p : Point) (ps : List Point) :
    IsGreatest { z : Int | ∃ q ∈ p :: ps, q.x = z } (maxXs (p :: ps)) := by
  constructor
  · rcases foldl_max_attained (fun q => q.x) ps p.x with h | ⟨q, hq, hval⟩
    · exact ⟨p, List.mem_cons_self p ps, h.symm⟩
    · exact ⟨q, List.mem_cons_of_mem p hq, hval.symm⟩
  · rintro z ⟨q, hq, rfl⟩
    rcases List.mem_cons.mp hq with h | h
    · subst h; exact foldl_max_init_le (fun q => q.x) ps q.x
    · exact foldl_max_mem_le (fun q => q.x) ps p.x q h

theorem maxYs_isGreatest (p : Point) (ps : List Point) :
    IsGreatest { z : Int | ∃ q ∈ p :: ps, q.y = z } (maxYs (p :: ps)) := by
  constructor
  · rcases foldl_max_attained (fun q => q.y) ps p.y with h | ⟨q, hq, hval⟩
    · exact ⟨p, List.mem_cons_self p ps, h.symm⟩
    · exact ⟨q, List.mem_cons_of_mem p hq, hval.symm⟩
  · rintro z ⟨q, hq, rfl⟩
    rcases List.mem_cons.mp hq with h | h
    · subst h; exact foldl_max_init_le (fun q => q.y) ps q.y
    · exact foldl_max_mem_le (fun q => q.y) ps p.y q h

theorem syncEffect_props (s : ComponentState) : (syncEffect s).props = s.props := by
  unfold syncEffect; split <;> rfl

theorem syncEffect_ui (s : ComponentState) : (syncEffect s).ui = s.ui := by
  unfold syncEffect; split <;> rfl

theorem syncEffect_fixed (s : ComponentState) (h : depsOf s = s.lastDeps) :
    syncEffect s = s := by
  unfold syncEffect; rw [if_pos h]

theorem step_lastDeps (s : ComponentState) (e : Event) :
    depsOf (step s e).1 = (step s e).1.lastDeps := by
  show depsOf (syncEffect (handle s e).1) = (syncEffect (handle s e).1).lastDeps
  unfold syncEffect
  split
  · next h => exact h
  · rfl

theorem handle_docMouseMove_state (s : ComponentState) (p : Point) :
    (handle s (Event.docMouseMove p)).1 = s := by
  unfold handle
  cases s.listener <;> rfl

theorem step_docMouseMove_live (s : ComponentState) (off p : Point)
    (hsnap : s.listener = some ⟨true, false, off⟩)
    (hdeps : depsOf s = s.lastDeps) :
    step s (Event.docMouseMove p) =
      (s, [Output.updatePos (p.x - off.x) (p.y - off.y)]) := by
  have h1 : handle s (Event.docMouseMove p) =
      (s, [Output.updatePos (p.x - off.x) (p.y - off.y)]) := by
    unfold handle
    rw [hsnap]
    show (s, handleMouseMove ⟨true, false, off⟩ p) = _
    unfold handleMouseMove
    rw [if_pos ⟨rfl, rfl⟩]
  unfold step
  rw [h1, syncEffect_fixed s hdeps]

theorem run_moves (off : Point) (s : ComponentState)
    (hsnap : s.listener = some ⟨true, false, off⟩)
    (hdeps : depsOf s = s.lastDeps) (moves : List Point) :
    run s (moves.map Event.docMouseMove) =
      (s, moves.map fun p => Output.updatePos (p.x - off.x) (p.y - off.y)) := by
  induction moves with
  | nil => rfl
  | cons p ps ih =>
    have hstep := step_docMouseMove_live s off p hsnap hdeps
    simp only [List.map_cons, run]
    rw [hstep, ih]
    rfl

theorem step_mouseDown_unlocked (s : ComponentState) (p : Point)
    (hl : s.props.locked = false) (hdeps : depsOf s = s.lastDeps) :
    step s (Event.mouseDown p) = (dragState s p, [Output.select]) := by
  unfold dragState
  have h1 : handle s (Event.mouseDown p) =
      ({ s with ui := { s.ui with
            isDragging := true
            dragOffset := ⟨p.x - s.props.x, p.y - s.props.y⟩
            offsetVersion := s.ui.offsetVersion + 1 } }, [Output.select]) := by
    simp only [handle]
    unfold handleMouseDown
    rw [if_neg (by simp [hl])]
  have hv : (s.ui.offsetVersion + 1 : Nat) ≠ s.ui.offsetVersion := by omega
  unfold step
  rw [h1]
  unfold syncEffect
  split
  · next hc =>
    exfalso
    exact hv ((congrArg (fun t : Bool × Bool × Nat => t.2.2) hc).trans
      (congrArg (fun t : Bool × Bool × Nat => t.2.2) hdeps.symm))
  · simp [depsOf, hl]

theorem step_applyLocked (s : ComponentState) (b : Bool)
    (hdeps : depsOf s = s.lastDeps) :
    step s (Event.applyLocked b) =
      ({ s with props := { s.props with locked := b } }, []) := by
  unfold step handle
  rw [syncEffect_fixed ({ s with props := { s.props with locked := b } }) hdeps]

theorem step_docMouseUp_exits (s : ComponentState) (snap : ListenerSnapshot)
    (hsnap : s.listener = some snap) (hdrag : s.ui.isDragging = true)
    (hdeps : depsOf s = s.lastDeps) :
    (step s Event.docMouseUp).1.ui.isDragging = false ∧
    (step s Event.docMouseUp).1.ui.isResizing = false ∧
    (step s Event.docMouseUp).1.listener = none := by
  have h1 : handle s Event.docMouseUp = (handleMouseUp s, []) := by
    unfold handle
    rw [hsnap]
  have hs : (step s Event.docMouseUp).1 = syncEffect (handle s Event.docMouseUp).1 := rfl
  rw [hs, h1]
  unfold handleMouseUp syncEffect
  split
  · next hc =>
    exfalso
    have hb : (false : Bool) = true :=
      ((congrArg (fun t : Bool × Bool × Nat => t.1) hc).trans
        (congrArg (fun t : Bool × Bool × Nat => t.1) hdeps.symm)).trans hdrag
    exact Bool.noConfusion hb
  · exact ⟨rfl, rfl, rfl⟩

theorem locked_idle_step (s : ComponentState) (e : Event)
    (hl : s.props.locked = true) (hd : s.ui.isDragging = false)
    (he : s.ui.isEditing = false) (hne : e ≠ Event.applyLocked false) :
    (step s e).1.props.locked = true ∧ (step s e).1.ui.isDragging = false ∧
      (step s e).1.ui.isEditing = false := by
  have hp : (step s e).1.props = (handle s e).1.props := syncEffect_props _
  have hu : (step s e).1.ui = (handle s e).1.ui := syncEffect_ui _
  rw [hp, hu]
  cases e with
  | mouseDown p =>
    simp only [handle]
    unfold handleMouseDown
    rw [if_pos hl]
    exact ⟨hl, hd, he⟩
  | doubleClick =>
    simp only [handle]
    unfold handleDoubleClick
    rw [if_pos hl]
    exact ⟨hl, hd, he⟩
  | contentClick =>
    simp only [handle]
    unfold handleStickyClick
    rw [if_neg (by simp [hl])]
    exact ⟨hl, hd, he⟩
  | docMouseMove p =>
    rw [handle_docMouseMove_state]
    exact ⟨hl, hd, he⟩
  | docMouseUp =>
    simp only [handle]
    cases hsl : s.listener with
    | none => exact ⟨hl, hd, he⟩
    | some snap => exact ⟨hl, rfl, he⟩
  | lockToggle =>
    simp only [handle]
    exact ⟨hl, hd, he⟩
  | contentChange c =>
    simp only [handle]
    unfold handleContentChange
    split <;> exact ⟨hl, hd, he⟩
  | editBlur =>
    simp only [handle]
    exact ⟨hl, hd, trivial⟩
  | mouseEnter =>
    simp only [handle]
    exact ⟨hl, hd, he⟩
  | mouseLeave =>
    simp only [handle]
    exact ⟨hl, hd, he⟩
  | applyLocked b =>
    cases b with
    | false => exact absurd rfl hne
    | true =>
      simp only [handle]
      exact ⟨trivial, hd, he⟩
  | applyPos p =>
    simp only [handle]
    exact ⟨hl, hd, he⟩

theorem renderCursorsFrom_get (zoom : ℚ) (cs : List CursorPosition) (k i : Nat) :
    (renderCursorsFrom zoom k cs)[i]? =
      (cs[i]?).map fun c => renderMarker (k + i) c zoom := by
  induction cs generalizing k i with
  | nil => simp [renderCursorsFrom]
  | cons c cs ih =>
    cases i with
    | zero => simp [renderCursorsFrom]
    | succ j =>
      have hkj : k + 1 + j = k + (j + 1) := by omega
      simp only [renderCursorsFrom, List.getElem?_cons_succ]
      rw [ih (k + 1) j, hkj]

/-! ## Claim theorems -/

/-- C4: For every pen element with at least 2 points, the rendered bounding
box is exactly the min/max extent of all points (left is the least x, top
the least y, left+width the greatest x, top+height the greatest y), and the
rendered path is the point sequence translated by (-min x, -min y); in
particular for points [(0,0),(10,0),(10,10)] the box is
{minX 0, minY 0, maxX 10, maxY 10} and the path starts at (0,0). -/
theorem C4_pen_bounding_box (points : List Point) (h : 2 ≤ points.length) :
    ∃ r : PenRender, renderPen points = some r ∧
      IsLeast { z : Int | ∃ q ∈ points, q.x = z } r.left ∧
      IsLeast { z : Int | ∃ q ∈ points, q.y = z } r.top ∧
      IsGreatest { z : Int | ∃ q ∈ points, q.x = z } (r.left + r.width) ∧
      IsGreatest { z : Int | ∃ q ∈ points, q.y = z } (r.top + r.height) ∧
      r.path = points.map (fun q => ⟨q.x - r.left, q.y - r.top⟩) ∧
      renderPen [⟨0, 0⟩, ⟨10, 0⟩, ⟨10, 10⟩] =
        some ⟨0, 0, 10, 10, [⟨0, 0⟩, ⟨10, 0⟩, ⟨10, 10⟩]⟩ := by
  cases points with
  | nil => simp at h
  | cons p ps =>
    have hr : renderPen (p :: ps) =
        some
          { left := minXs (p :: ps)
            top := minYs (p :: ps)
            width := maxXs (p :: ps) - minXs (p :: ps)
            height := maxYs (p :: ps) - minYs (p :: ps)
            path := (p :: ps).map fun q =>
              ⟨q.x - minXs (p :: ps), q.y - minYs (p :: ps)⟩ } := by
      unfold renderPen
      rw [if_neg (Nat.not_lt.mpr h)]
    refine ⟨_, hr, minXs_isLeast p ps, minYs_isLeast p ps, ?_, ?_, rfl, by decide⟩
    · have hco : minXs (p :: ps) + (maxXs (p :: ps) - minXs (p :: ps)) = maxXs (p :: ps) := by
        ring
      rw [hco]
      exact maxXs_isGreatest p ps
    · have hco : minYs (p :: ps) + (maxYs (p :: ps) - minYs (p :: ps)) = maxYs (p :: ps) := by
        ring
      rw [hco]
      exact maxYs_isGreatest p ps

/-- Witness for C4 at the concrete point list [(0,0),(10,0),(10,10)]. -/
theorem C4_pen_bounding_box_witness :
    ∃ r : PenRender,
      renderPen [⟨0, 0⟩, ⟨10, 0⟩, ⟨10, 10⟩] = some r ∧
      IsLeast { z : Int | ∃ q ∈ ([⟨0, 0⟩, ⟨10, 0⟩, ⟨10, 10⟩] : List Point), q.x = z } r.left ∧
      IsLeast { z : Int | ∃ q ∈ ([⟨0, 0⟩, ⟨10, 0⟩, ⟨10, 10⟩] : List Point), q.y = z } r.top ∧
      IsGreatest { z : Int | ∃ q ∈ ([⟨0, 0⟩, ⟨10, 0⟩, ⟨10, 10⟩] : List Point), q.x = z }
        (r.left + r.width) ∧
      IsGreatest { z : Int | ∃ q ∈ ([⟨0, 0⟩, ⟨10, 0⟩, ⟨10, 10⟩] : List Point), q.y = z }
        (r.top + r.height) ∧
      r.path = ([⟨0, 0⟩, ⟨10, 0⟩, ⟨10, 10⟩] : List Point).map
        (fun q => ⟨q.x - r.left, q.y - r.top⟩) ∧
      renderPen [⟨0, 0⟩, ⟨10, 0⟩, ⟨10, 10⟩] =
        some ⟨0, 0, 10, 10, [⟨0, 0⟩, ⟨10, 0⟩, ⟨10, 10⟩]⟩ :=
  C4_pen_bounding_box [⟨0, 0⟩, ⟨10, 0⟩, ⟨10, 10⟩] (by decide)

/-- C5: For every pen element whose point sequence has fewer than 2 points
(including one point and the empty sequence), rendering returns nothing
(no visual output, no error). -/
theorem C5_pen_under_two_points (points : List Point) (h : points.length < 2) :
    renderPen points = none := by
  unfold renderPen
  rw [if_pos h]

/-- Witness for C5 at the one-point sequence [(3,4)]. -/
theorem C5_pen_under_two_points_witness :
    ([⟨3, 4⟩] : List Point).length < 2 ∧ renderPen [⟨3, 4⟩] = none :=
  ⟨by decide, C5_pen_under_two_points [⟨3, 4⟩] (by decide)⟩

theorem foldl_add_card_length (cols : List KanbanColumn) (a : Nat) :
    cols.foldl (fun total col => total + col.cards.length) a =
      a + (cols.map fun col => col.cards.length).sum := by
  induction cols generalizing a with
  | nil => simp
  | cons c cs ih => simp [ih, Nat.add_assoc]

/-- C6: For every kanban element with board data, the task-count badge
rendered in its header equals the sum over all columns of the number of
cards in that column. -/
theorem C6_kanban_task_count (locked : Bool) (d : KanbanData) (n : Nat)
    (h : renderKanbanBadge locked (some d) = some n) :
    n = (d.columns.map fun col => col.cards.length).sum := by
  cases locked with
  | true => simp [renderKanbanBadge] at h
  | false =>
    simp [renderKanbanBadge] at h
    subst h
    unfold taskCount
    simpa using foldl_add_card_length d.columns 0

/-- Demo board used to witness C6: two columns with two and one cards. -/
def demoBoard : KanbanData :=
  { columns :=
    [ { id := "c1", title := "Todo",
        cards := [⟨"t1", "a", none, none, none, none⟩,
                  ⟨"t2", "b", none, none, none, none⟩] },
      { id := "c2", title := "Done",
        cards := [⟨"t3", "c", none, none, none, none⟩] } ] }

/-- Witness for C6 on the demo board: badge 3 equals the card-count sum. -/
theorem C6_kanban_task_count_witness :
    renderKanbanBadge false (some demoBoard) = some 3 ∧
      3 = (demoBoard.columns.map fun col => col.cards.length).sum :=
  ⟨rfl, C6_kanban_task_count false demoBoard 3 rfl⟩

/-- C1: For every non-locked element with top-left (x0,y0), a pointer-down
at (px,py) captures drag offset (px-x0, py-y0) and enters Dragging, and
every subsequent pointer-move to (p.x,p.y) while Dragging requests an
update with position exactly (p.x-(px-x0), p.y-(py-y0)) via onUpdate. -/
theorem C1_drag_requests_pointer_minus_offset (s : ComponentState)
    (x0 y0 px py : Int) (moves : List Point)
    (hl : s.props.locked = false) (hx : s.props.x = x0) (hy : s.props.y = y0)
    (hdeps : depsOf s = s.lastDeps) :
    ∃ s1, step s (Event.mouseDown ⟨px, py⟩) = (s1, [Output.select]) ∧
      s1.ui.isDragging = true ∧
      s1.ui.dragOffset = ⟨px - x0, py - y0⟩ ∧
      (run s1 (moves.map Event.docMouseMove)).2 =
        moves.map fun p => Output.updatePos (p.x - (px - x0)) (p.y - (py - y0)) := by
  subst hx hy
  have hstep := step_mouseDown_unlocked s ⟨px, py⟩ hl hdeps
  refine ⟨dragState s ⟨px, py⟩, hstep, rfl, rfl, ?_⟩
  exact congrArg Prod.snd
    (run_moves ⟨px - s.props.x, py - s.props.y⟩ (dragState s ⟨px, py⟩) rfl rfl moves)

/-- Witness for C1: a rectangle at (5,7), pointer-down at (20,30) captures
offset (15,23); a move to (100,200) requests position (85,177). -/
theorem C1_drag_requests_pointer_minus_offset_witness :
    ∃ s1, step (mkIdle ElementType.rectangle 5 7 false) (Event.mouseDown ⟨20, 30⟩) =
        (s1, [Output.select]) ∧
      s1.ui.isDragging = true ∧
      s1.ui.dragOffset = ⟨15, 23⟩ ∧
      (run s1 [Event.docMouseMove ⟨100, 200⟩]).2 = [Output.updatePos 85 177] :=
  C1_drag_requests_pointer_minus_offset (mkIdle ElementType.rectangle 5 7 false)
    5 7 20 30 [⟨100, 200⟩] rfl rfl rfl rfl

/-- C2: If the locked flag becomes true while a drag is already in progress,
the drag is not cancelled: the registered move listener still holds the
closure captured at drag start (locked = false there), so subsequent
pointer-moves continue to request position updates, until pointer-up exits
Dragging and tears the listener down. -/
theorem C2_lock_mid_drag_not_cancelled (s : ComponentState) (p0 : Point)
    (moves : List Point) (hl : s.props.locked = false)
    (hdeps : depsOf s = s.lastDeps) :
    ∃ s1 s2, step s (Event.mouseDown p0) = (s1, [Output.select]) ∧
      step s1 (Event.applyLocked true) = (s2, []) ∧
      s2.props.locked = true ∧
      s2.ui.isDragging = true ∧
      (run s2 (moves.map Event.docMouseMove)).2 =
        moves.map (fun p =>
          Output.updatePos (p.x - (p0.x - s.props.x)) (p.y - (p0.y - s.props.y))) ∧
      (step s2 Event.docMouseUp).1.ui.isDragging = false ∧
      (step s2 Event.docMouseUp).1.listener = none := by
  have hstep1 := step_mouseDown_unlocked s p0 hl hdeps
  refine ⟨dragState s p0, lockedDragState s p0, hstep1, ?_, rfl, rfl, ?_, ?_, ?_⟩
  · exact step_applyLocked (dragState s p0) true rfl
  · exact congrArg Prod.snd
      (run_moves ⟨p0.x - s.props.x, p0.y - s.props.y⟩ (lockedDragState s p0) rfl rfl moves)
  · exact (step_docMouseUp_exits (lockedDragState s p0)
      ⟨true, false, ⟨p0.x - s.props.x, p0.y - s.props.y⟩⟩ rfl rfl rfl).1
  · exact (step_docMouseUp_exits (lockedDragState s p0)
      ⟨true, false, ⟨p0.x - s.props.x, p0.y - s.props.y⟩⟩ rfl rfl rfl).2.2

/-- Witness for C2: a rectangle at (5,7), pointer-down at (20,30), lock
applied mid-drag; a move to (40,50) still requests (25,27); pointer-up
exits Dragging. -/
theorem C2_lock_mid_drag_not_cancelled_witness :
    ∃ s1 s2, step (mkIdle ElementType.rectangle 5 7 false) (Event.mouseDown ⟨20, 30⟩) =
        (s1, [Output.select]) ∧
      step s1 (Event.applyLocked true) = (s2, []) ∧
      s2.props.locked = true ∧
      s2.ui.isDragging = true ∧
      (run s2 [Event.docMouseMove ⟨40, 50⟩]).2 = [Output.updatePos 25 27] ∧
      (step s2 Event.docMouseUp).1.ui.isDragging = false ∧
      (step s2 Event.docMouseUp).1.listener = none :=
  C2_lock_mid_drag_not_cancelled (mkIdle ElementType.rectangle 5 7 false)
    ⟨20, 30⟩ [⟨40, 50⟩] rfl rfl

/-- C3: From an idle locked state (not Dragging, not Editing), no sequence
of events leaving the lock in place (no parent-applied unlock) ever enters
Dragging or Editing: pointer-down, double-click and the sticky single-click
are all suppressed while locked. -/
theorem C3_locked_idle_never_drags_or_edits (s : ComponentState) (evs : List Event)
    (hl : s.props.locked = true) (hd : s.ui.isDragging = false)
    (he : s.ui.isEditing = false)
    (hevs : ∀ e ∈ evs, e ≠ Event.applyLocked false) :
    (run s evs).1.props.locked = true ∧ (run s evs).1.ui.isDragging = false ∧
      (run s evs).1.ui.isEditing = false := by
  induction evs generalizing s with
  | nil => exact ⟨hl, hd, he⟩
  | cons e es ih =>
    have h1 := locked_idle_step s e hl hd he (hevs e (List.mem_cons_self e es))
    exact ih (step s e).1 h1.1 h1.2.1 h1.2.2
      (fun e' he' => hevs e' (List.mem_cons_of_mem e he'))

/-- Witness for C3: a locked sticky note at (0,0) stays out of Dragging and
Editing across a pointer-down, double-click, single click, move and
lock-toggle request. -/
theorem C3_locked_idle_never_drags_or_edits_witness :
    (run (mkIdle ElementType.sticky 0 0 true)
        [Event.mouseDown ⟨3, 4⟩, Event.doubleClick, Event.contentClick,
         Event.docMouseMove ⟨9, 9⟩, Event.lockToggle]).1.props.locked = true ∧
      (run (mkIdle ElementType.sticky 0 0 true)
        [Event.mouseDown ⟨3, 4⟩, Event.doubleClick, Event.contentClick,
         Event.docMouseMove ⟨9, 9⟩, Event.lockToggle]).1.ui.isDragging = false ∧
      (run (mkIdle ElementType.sticky 0 0 true)
        [Event.mouseDown ⟨3, 4⟩, Event.doubleClick, Event.contentClick,
         Event.docMouseMove ⟨9, 9⟩, Event.lockToggle]).1.ui.isEditing = false :=
  C3_locked_idle_never_drags_or_edits (mkIdle ElementType.sticky 0 0 true)
    [Event.mouseDown ⟨3, 4⟩, Event.doubleClick, Event.contentClick,
     Event.docMouseMove ⟨9, 9⟩, Event.lockToggle]
    rfl rfl rfl (by decide)

/-- C7: For every cursor entry with raw coordinates (x,y) and zoom z, the
marker rendered at that entry's index has position (x*z/100, y*z/100). -/
theorem C7_cursor_scaled_position (cursors : List CursorPosition) (zoom : ℚ)
    (i : Nat) (c : CursorPosition) (h : cursors[i]? = some c) :
    ∃ m : CursorMarker, (renderCursors cursors zoom)[i]? = some m ∧
      m.left = c.x * zoom / 100 ∧ m.top = c.y * zoom / 100 := by
  refine ⟨renderMarker i c zoom, ?_, ?_, ?_⟩
  · unfold renderCursors
    rw [renderCursorsFrom_get, h]
    simp
  · simp [renderMarker, mul_div_assoc]
  · simp [renderMarker, mul_div_assoc]

/-- Demo cursor entry used to witness C7 and C8. -/
def demoCursor : CursorPosition :=
  { user := { id := "u1", name := "Ada", avatar_url := "" }, x := 30, y := 40 }

/-- Witness for C7: at zoom 50, the cursor at (30,40) renders at
(30*50/100, 40*50/100). -/
theorem C7_cursor_scaled_position_witness :
    ∃ m : CursorMarker, (renderCursors [demoCursor] 50)[0]? = some m ∧
      m.left = demoCursor.x * 50 / 100 ∧ m.top = demoCursor.y * 50 / 100 :=
  C7_cursor_scaled_position [demoCursor] 50 0 demoCursor rfl

/-- C8: The i-th rendered marker's color is the palette entry at index
i mod 8 of the fixed 8-color palette, a function of the list position only
(the right-hand side does not mention the collaborator). -/
theorem C8_cursor_color_by_index (cursors : List CursorPosition) (zoom : ℚ)
    (i : Nat) (m : CursorMarker)
    (h : (renderCursors cursors zoom)[i]? = some m) :
    m.color = cursorColors.getD (i % 8) "" := by
  unfold renderCursors at h
  rw [renderCursorsFrom_get] at h
  cases hc : cursors[i]? with
  | none => rw [hc] at h; simp at h
  | some c =>
    rw [hc] at h
    simp only [Option.map_some', Option.some.injEq] at h
    rw [← h]
    simp [renderMarker, cursorColors]

/-- Witness for C8: the 0-th marker of a one-cursor list has the palette
color at index 0 mod 8. -/
theorem C8_cursor_color_by_index_witness :
    (renderMarker 0 demoCursor 50).color = cursorColors.getD (0 % 8) "" :=
  C8_cursor_color_by_index [demoCursor] 50 0 (renderMarker 0 demoCursor 50) rfl

/-- C9 counterexample: the claim "an element rendered with defaulted size
has rendered width 100" fails for the text kind: with the defaulted width
(100), the text branch renders width 'auto', not 100px. -/
theorem C9_defaults_counterexample :
    defaultWidth none = 100 ∧
      textStyleWidth (defaultWidth none) = CssSize.auto ∧
      textStyleWidth (defaultWidth none) ≠ CssSize.px 100 := by
  decide

/-- C9 (amended): width/height default to 100, color to '#6366f1', stroke
width to 2; a rectangle/circle/sticky/frame/kanban element with defaulted
size renders at 100×100, but a text element with width or height equal to
100 (including the default) renders that dimension as 'auto'
(content-sized). -/
theorem C9_defaults_amended :
    defaultWidth none = 100 ∧ defaultHeight none = 100 ∧
      defaultColor none = "#6366f1" ∧ defaultStrokeWidth none = 2 ∧
      boxStyleWidth (defaultWidth none) = CssSize.px 100 ∧
      boxStyleHeight (defaultHeight none) = CssSize.px 100 ∧
      textStyleWidth (defaultWidth none) = CssSize.auto ∧
      textStyleHeight (defaultHeight none) = CssSize.auto :=
  ⟨rfl, rfl, rfl, rfl, by decide, by decide, by decide, by decide⟩

/-- C10: A single click on the content area of a non-locked, non-editing
sticky element enters Editing; when locked the click is a no-op; and the
single-click entry path does not exist for the text kind (the click leaves
the state unchanged). -/
theorem C10_sticky_single_click (s : ComponentState)
    (hdeps : depsOf s = s.lastDeps) :
    (s.props.type = ElementType.sticky → s.props.locked = false →
      s.ui.isEditing = false →
      (step s Event.contentClick).1.ui.isEditing = true) ∧
    (s.props.locked = true → step s Event.contentClick = (s, [])) ∧
    (s.props.type = ElementType.text → step s Event.contentClick = (s, [])) := by
  refine ⟨?_, ?_, ?_⟩
  · intro ht hl he
    have hu : (step s Event.contentClick).1.ui = (handle s Event.contentClick).1.ui :=
      syncEffect_ui _
    rw [hu]
    simp only [handle]
    unfold handleStickyClick
    rw [if_pos ⟨ht, he, hl⟩]
  · intro hl
    have h1 : handle s Event.contentClick = (s, []) := by
      simp only [handle]
      unfold handleStickyClick
      rw [if_neg (by simp [hl])]
    show (syncEffect (handle s Event.contentClick).1, (handle s Event.contentClick).2) = _
    rw [h1, syncEffect_fixed s hdeps]
  · intro ht
    have h1 : handle s Event.contentClick = (s, []) := by
      simp only [handle]
      unfold handleStickyClick
      rw [if_neg (by simp [ht])]
    show (syncEffect (handle s Event.contentClick).1, (handle s Event.contentClick).2) = _
    rw [h1, syncEffect_fixed s hdeps]

/-- Witness for C10: the implications instantiated at a non-locked sticky
element at (1,2). -/
theorem C10_sticky_single_click_witness :
    ((mkIdle ElementType.sticky 1 2 false).props.type = ElementType.sticky →
      (mkIdle ElementType.sticky 1 2 false).props.locked = false →
      (mkIdle ElementType.sticky 1 2 false).ui.isEditing = false →
      (step (mkIdle ElementType.sticky 1 2 false) Event.contentClick).1.ui.isEditing = true) ∧
    ((mkIdle ElementType.sticky 1 2 false).props.locked = true →
      step (mkIdle ElementType.sticky 1 2 false) Event.contentClick =
        (mkIdle ElementType.sticky 1 2 false, [])) ∧
    ((mkIdle ElementType.sticky 1 2 false).props.type = ElementType.text →
      step (mkIdle ElementType.sticky 1 2 false) Event.contentClick =
        (mkIdle ElementType.sticky 1 2 false, [])) :=
  C10_sticky_single_click (mkIdle ElementType.sticky 1 2 false) rfl

end CanvasModel
